import Mathlib

/-!
Verification of the `VersatileDigraph` class from `src/student_code.py`.

The Python class keeps three pieces of state:
  * `self.nodes` — an insertion-ordered dict from node id (str) to node value;
  * `self.edges` — an insertion-ordered dict from start id to an
    insertion-ordered dict from end id to a pair `(edge_weight, edge_name)`;
  * `self.edge_names` — a set of edge names.

We embed Python dicts as association lists with dict semantics (update in
place, append fresh keys at the end), Python numeric/str values as an
inductive `Value` type, and each raised exception as a constructor of `Err`
recording the exception class and its interpolated data.  Node identifiers
are `String`; the `isinstance(..., str)` guards of the source are therefore
vacuously satisfied and not represented.  Mutating methods are embedded as
state transformers returning the post-call state together with the raised
exception, if any (on an exception Python leaves the object in whatever
state the method had reached, so the post-state of a failing call matters).
-/

/-- A Python value as used by the graph: a number (`int`/`float`, modelled
as `Int`), a string, or `None`. -/
inductive Value where
  | num (n : Int)
  | str (s : String)
  | nil
  deriving Repr, DecidableEq

/-- Embeds `isinstance(v, (int, float))`. -/
def Value.isNumeric : Value → Bool
  | .num _ => true
  | _ => false

/-- Embeds `v < 0` for a value that passed the numeric check. -/
def Value.isNeg : Value → Bool
  | .num n => decide (n < 0)
  | _ => false

/-- The exceptions raised by `VersatileDigraph`, one constructor per raise
site, carrying the data interpolated into the message. -/
inductive Err where
  /-- `TypeError("edge_weight must be a number.")` -/
  | typeErrorWeight
  /-- `ValueError("Edge weight cannot be negative.")` -/
  | valueErrorNegWeight
  /-- `TypeError("node_value must be a number.")` -/
  | typeErrorNodeValue
  /-- `ValueError(f"Node with id '{node_id}' already exists.")` -/
  | valueErrorDupNode (node_id : String)
  /-- `ValueError(f"Edge with name '{edge_name}' already exists.")` -/
  | valueErrorDupEdgeName (name : String)
  /-- `KeyError(f"No edge exists between '{s}' and '{e}'.")` -/
  | keyErrorNoEdge (s e : String)
  /-- `KeyError(f"Node '{node_id}' does not exist.")` -/
  | keyErrorNoNode (node_id : String)
  /-- `KeyError(f"No successor found on edge '{name}' for node '{id}'.")` -/
  | keyErrorNoSuccessor (node_id : String) (name : String)
  deriving Repr, DecidableEq

/-- Dict lookup: `d[k]` / `k in d`. -/
def alookup {α : Type} (k : String) : List (String × α) → Option α
  | [] => Option.none
  | (k', v) :: rest => if k = k' then some v else alookup k rest

/-- Dict assignment `d[k] = v`: update in place if present, else append. -/
def dinsert {α : Type} (k : String) (v : α) : List (String × α) → List (String × α)
  | [] => [(k, v)]
  | (k', v') :: rest => if k = k' then (k, v) :: rest else (k', v') :: dinsert k v rest

/-- Set insertion `s.add(x)` for `edge_names`. -/
def setAdd (l : List String) (x : String) : List String :=
  if x ∈ l then l else l ++ [x]

/-- The state of a `VersatileDigraph` object. -/
structure VersatileDigraph where
  nodes : List (String × Value)
  edges : List (String × List (String × (Value × String)))
  edge_names : List String
  deriving Repr, DecidableEq

/-- `VersatileDigraph.__init__`. -/
def initGraph : VersatileDigraph :=
  { nodes := [], edges := [], edge_names := [] }

/-- `VersatileDigraph.add_node(node_id, node_value=0)`.  Returns the
post-call state and the raised exception, if any. -/
def add_node (g : VersatileDigraph) (node_id : String) (node_value : Value) :
    VersatileDigraph × Option Err :=
  if !node_value.isNumeric then
    (g, some Err.typeErrorNodeValue)
  else if (alookup node_id g.nodes).isNone then
    ({ g with nodes := dinsert node_id node_value g.nodes }, Option.none)
  else
    (g, some (Err.valueErrorDupNode node_id))

/-- The default edge name `f"edge_{start_node_id}_{end_node_id}"`. -/
def defaultEdgeName (start_node_id end_node_id : String) : String :=
  "edge_" ++ start_node_id ++ "_" ++ end_node_id

/-- Lines 25–28 of `add_edge`, for one endpoint:
`if node_id not in self.nodes: self.add_node(node_id, node_value)`. -/
def ensureNode (g : VersatileDigraph) (node_id : String) (node_value : Value) :
    VersatileDigraph × Option Err :=
  if (alookup node_id g.nodes).isNone then add_node g node_id node_value
  else (g, Option.none)

/-- Lines 35–44 of `add_edge`, after the edge name has been resolved:
initialize `self.edges[start]` if absent, set
`self.edges[start][end] = (edge_weight, edge_name)` and add the name to
`self.edge_names`. -/
def storeEdge (g : VersatileDigraph) (start_node_id end_node_id : String)
    (edge_weight : Value) (name : String) : VersatileDigraph :=
  let edges1 := if (alookup start_node_id g.edges).isNone
                then dinsert start_node_id [] g.edges
                else g.edges
  let inner := (alookup start_node_id edges1).getD []
  { g with
    edges := dinsert start_node_id
               (dinsert end_node_id (edge_weight, name) inner) edges1,
    edge_names := setAdd g.edge_names name }

/-- `VersatileDigraph.add_edge(start_node_id, end_node_id, start_node_value=0,
end_node_value=0, edge_name=None, edge_weight=1)`.  Returns the post-call
state and the raised exception, if any; note that an exception raised after
the endpoint auto-creation step leaves the freshly added nodes in place.
The duplicate-name check runs only when `edge_name` was provided (`is not
None`), before the default name is computed. -/
def add_edge (g : VersatileDigraph) (start_node_id end_node_id : String)
    (start_node_value end_node_value : Value) (edge_name : Option String)
    (edge_weight : Value) : VersatileDigraph × Option Err :=
  if !edge_weight.isNumeric then
    (g, some Err.typeErrorWeight)
  else if edge_weight.isNeg then
    (g, some Err.valueErrorNegWeight)
  else
    match ensureNode g start_node_id start_node_value with
    | (g1, some e) => (g1, some e)
    | (g1, Option.none) =>
      match ensureNode g1 end_node_id end_node_value with
      | (g2, some e) => (g2, some e)
      | (g2, Option.none) =>
        match edge_name with
        | some n =>
          if n ∈ g2.edge_names then
            (g2, some (Err.valueErrorDupEdgeName n))
          else
            (storeEdge g2 start_node_id end_node_id edge_weight n, Option.none)
        | Option.none =>
          (storeEdge g2 start_node_id end_node_id edge_weight
            (defaultEdgeName start_node_id end_node_id), Option.none)

/-- `VersatileDigraph.get_nodes()`. -/
def get_nodes (g : VersatileDigraph) : List String :=
  g.nodes.map Prod.fst

/-- `VersatileDigraph.get_edge_weight(start_node_id, end_node_id)`. -/
def get_edge_weight (g : VersatileDigraph) (start_node_id end_node_id : String) :
    Except Err Value :=
  match alookup start_node_id g.edges with
  | some inner =>
    match alookup end_node_id inner with
    | some (w, _) => Except.ok w
    | Option.none => Except.error (Err.keyErrorNoEdge start_node_id end_node_id)
  | Option.none => Except.error (Err.keyErrorNoEdge start_node_id end_node_id)

/-- `VersatileDigraph.get_node_value(node_id)`. -/
def get_node_value (g : VersatileDigraph) (node_id : String) : Except Err Value :=
  match alookup node_id g.nodes with
  | some v => Except.ok v
  | Option.none => Except.error (Err.keyErrorNoNode node_id)

/-- `VersatileDigraph.predecessors(node_id)`. -/
def predecessors (g : VersatileDigraph) (node_id : String) :
    Except Err (List String) :=
  if (alookup node_id g.nodes).isNone then
    Except.error (Err.keyErrorNoNode node_id)
  else
    Except.ok ((g.edges.filter (fun p => (alookup node_id p.2).isSome)).map Prod.fst)

/-- `VersatileDigraph.successors(node_id)`. -/
def successors (g : VersatileDigraph) (node_id : String) :
    Except Err (List String) :=
  if (alookup node_id g.nodes).isNone then
    Except.error (Err.keyErrorNoNode node_id)
  else
    match alookup node_id g.edges with
    | some inner => Except.ok (inner.map Prod.fst)
    | Option.none => Except.ok []

/-- `VersatileDigraph.successor_on_edge(node_id, edge_name)`. -/
def successor_on_edge (g : VersatileDigraph) (node_id : String)
    (edge_name : String) : Except Err String :=
  match alookup node_id g.edges with
  | Option.none => Except.error (Err.keyErrorNoNode node_id)
  | some inner =>
    match inner.find? (fun p => p.2.2 = edge_name) with
    | some p => Except.ok p.1
    | Option.none => Except.error (Err.keyErrorNoSuccessor node_id edge_name)

/-- `VersatileDigraph.in_degree(node_id)` — `len(self.predecessors(node_id))`,
propagating the exception from `predecessors`. -/
def in_degree (g : VersatileDigraph) (node_id : String) : Except Err Nat :=
  match predecessors g node_id with
  | Except.ok l => Except.ok l.length
  | Except.error e => Except.error e

/-- `VersatileDigraph.out_degree(node_id)` — note the source performs no
existence check here and never raises. -/
def out_degree (g : VersatileDigraph) (node_id : String) : Except Err Nat :=
  match alookup node_id g.edges with
  | some inner => Except.ok inner.length
  | Option.none => Except.ok 0

/-- One mutating call, for reasoning about arbitrary call sequences. -/
inductive Op where
  | addNode (node_id : String) (node_value : Value)
  | addEdge (start_node_id end_node_id : String)
      (start_node_value end_node_value : Value) (edge_name : Option String)
      (edge_weight : Value)
  deriving Repr, DecidableEq

/-- Runs one call and keeps the post-call state whether or not the call
raised (in Python the object survives the exception in exactly that state). -/
def applyOp (g : VersatileDigraph) : Op → VersatileDigraph
  | .addNode i v => (add_node g i v).1
  | .addEdge s e sv ev n w => (add_edge g s e sv ev n w).1

/-- Runs a sequence of mutating calls from a starting state. -/
def runOps (g : VersatileDigraph) : List Op → VersatileDigraph
  | [] => g
  | op :: rest => runOps (applyOp g op) rest

/-- Membership in the node table: `x in self.nodes`. -/
def nodeMem (g : VersatileDigraph) (x : String) : Bool :=
  (alookup x g.nodes).isSome

/-- Every edge endpoint recorded in the edge table is a key of the node
table. -/
def edgeEndpointsPresent (g : VersatileDigraph) : Bool :=
  g.edges.all (fun p => nodeMem g p.1 && p.2.all (fun q => nodeMem g q.1))

/-- Nodes A(value 10) and B(value 20), as in the spec's worked scenario. -/
def gAB : VersatileDigraph :=
  (add_node (add_node initGraph "A" (Value.num 10)).1 "B" (Value.num 20)).1

/-- The spec's worked scenario: nodes A(10), B(20) and the edge A→B named
"e1" with weight 5. -/
def gScenario : VersatileDigraph :=
  (add_edge gAB "A" "B" (Value.num 0) (Value.num 0) (some "e1") (Value.num 5)).1

/-- Nodes A(10), B(20), C(0) and an edge A→B explicitly named "edge_A_C"
(the name that a later defaulted `add_edge("A", "C")` would also pick). -/
def gDefaultClash : VersatileDigraph :=
  (add_edge (add_node gAB "C" (Value.num 0)).1 "A" "B" (Value.num 0)
    (Value.num 0) (some "edge_A_C") (Value.num 1)).1

/-- Nodes A(10), B(20) and an edge A→B named "n1" with weight 1, for probing
a second A→B insertion under a different name. -/
def gN1 : VersatileDigraph :=
  (add_edge gAB "A" "B" (Value.num 0) (Value.num 0) (some "n1") (Value.num 1)).1

/-! ### Lemmas about the dictionary embedding -/

theorem alookup_dinsert {α : Type} (k k' : String) (v : α) (l : List (String × α)) :
    alookup k' (dinsert k v l) = if k' = k then some v else alookup k' l := by
  induction l with
  | nil => simp [dinsert, alookup]
  | cons p rest ih =>
    obtain ⟨k₀, v₀⟩ := p
    simp only [dinsert]
    by_cases hk : k = k₀
    · subst hk
      by_cases hk' : k' = k
      · simp [alookup, hk']
      · simp [alookup, hk']
    · rw [if_neg hk]
      by_cases hk' : k' = k₀
      · have hne : ¬ k' = k := fun h => hk (h.symm.trans hk')
        have hne0 : ¬ k₀ = k := fun h => hk h.symm
        simp [alookup, hk', hne, hne0]
      · simp [alookup, hk', ih]

theorem alookup_mem {α : Type} {k : String} {v : α} {l : List (String × α)}
    (h : alookup k l = some v) : (k, v) ∈ l := by
  induction l with
  | nil => simp [alookup] at h
  | cons p rest ih =>
    obtain ⟨k₀, v₀⟩ := p
    simp only [alookup] at h
    by_cases hk : k = k₀
    · rw [if_pos hk] at h
      cases h
      subst hk
      exact List.mem_cons_self _ _
    · rw [if_neg hk] at h
      exact List.mem_cons_of_mem _ (ih h)

theorem mem_dinsert {α : Type} {x : String × α} {k : String} {v : α}
    {l : List (String × α)} (h : x ∈ dinsert k v l) : x = (k, v) ∨ x ∈ l := by
  induction l with
  | nil => simpa [dinsert] using h
  | cons p rest ih =>
    simp only [dinsert] at h
    by_cases hk : k = p.1
    · rw [if_pos (by cases p; exact hk)] at h
      rcases List.mem_cons.mp h with h | h
      · exact Or.inl h
      · exact Or.inr (List.mem_cons_of_mem _ h)
    · rw [if_neg (by cases p; exact hk)] at h
      rcases List.mem_cons.mp h with h | h
      · exact Or.inr (h ▸ List.mem_cons_self _ _)
      · rcases ih h with h | h
        · exact Or.inl h
        · exact Or.inr (List.mem_cons_of_mem _ h)

theorem alookup_isSome_dinsert {α : Type} {x : String} {l : List (String × α)}
    (k : String) (v : α) (h : (alookup x l).isSome = true) :
    (alookup x (dinsert k v l)).isSome = true := by
  rw [alookup_dinsert]
  by_cases hx : x = k
  · simp [hx]
  · rw [if_neg hx]; exact h

/-! ### Lemmas about add_node -/

theorem add_node_success (g : VersatileDigraph) (i : String) (v : Value)
    (h1 : v.isNumeric = true) (h2 : alookup i g.nodes = Option.none) :
    add_node g i v = ({ g with nodes := dinsert i v g.nodes }, Option.none) := by
  simp [add_node, h1, h2]

theorem add_node_fst_cases (g : VersatileDigraph) (i : String) (v : Value) :
    (add_node g i v).1 = g
    ∨ (add_node g i v).1 = { g with nodes := dinsert i v g.nodes } := by
  by_cases h1 : (!v.isNumeric) = true
  · left; simp [add_node, h1]
  · by_cases h2 : (alookup i g.nodes).isNone = true
    · right; simp [add_node, h1, h2]
    · left; simp [add_node, h1, h2]

theorem add_node_fail_eq (g : VersatileDigraph) (i : String) (v : Value)
    (h : (add_node g i v).2 ≠ Option.none) : (add_node g i v).1 = g := by
  by_cases h1 : (!v.isNumeric) = true
  · simp [add_node, h1]
  · by_cases h2 : (alookup i g.nodes).isNone = true
    · exact absurd (by simp [add_node, h1, h2]) h
    · simp [add_node, h1, h2]

theorem add_node_ok_mem (g : VersatileDigraph) (i : String) (v : Value)
    (h : (add_node g i v).2 = Option.none) :
    nodeMem (add_node g i v).1 i = true := by
  by_cases h1 : (!v.isNumeric) = true
  · simp [add_node, h1] at h
  · by_cases h2 : (alookup i g.nodes).isNone = true
    · simp [add_node, h1, h2, nodeMem, alookup_dinsert]
    · simp [add_node, h1, h2] at h

theorem add_node_edges (g : VersatileDigraph) (i : String) (v : Value) :
    (add_node g i v).1.edges = g.edges := by
  rcases add_node_fst_cases g i v with h | h <;> rw [h]

theorem add_node_edge_names (g : VersatileDigraph) (i : String) (v : Value) :
    (add_node g i v).1.edge_names = g.edge_names := by
  rcases add_node_fst_cases g i v with h | h <;> rw [h]

theorem add_node_nodeMem_mono (g : VersatileDigraph) (i : String) (v : Value)
    (x : String) (h : nodeMem g x = true) :
    nodeMem (add_node g i v).1 x = true := by
  rcases add_node_fst_cases g i v with hc | hc <;> rw [hc]
  · exact h
  · exact alookup_isSome_dinsert i v h

/-! ### Lemmas about ensureNode -/

theorem ensureNode_fst_cases (g : VersatileDigraph) (i : String) (v : Value) :
    (ensureNode g i v).1 = g
    ∨ (ensureNode g i v).1 = { g with nodes := dinsert i v g.nodes } := by
  unfold ensureNode
  by_cases hc : (alookup i g.nodes).isNone = true
  · rw [if_pos hc]; exact add_node_fst_cases g i v
  · rw [if_neg hc]; left; rfl

theorem ensureNode_edges (g : VersatileDigraph) (i : String) (v : Value) :
    (ensureNode g i v).1.edges = g.edges := by
  rcases ensureNode_fst_cases g i v with h | h <;> rw [h]

theorem ensureNode_edge_names (g : VersatileDigraph) (i : String) (v : Value) :
    (ensureNode g i v).1.edge_names = g.edge_names := by
  rcases ensureNode_fst_cases g i v with h | h <;> rw [h]

theorem ensureNode_nodeMem_mono (g : VersatileDigraph) (i : String) (v : Value)
    (x : String) (h : nodeMem g x = true) :
    nodeMem (ensureNode g i v).1 x = true := by
  rcases ensureNode_fst_cases g i v with hc | hc <;> rw [hc]
  · exact h
  · exact alookup_isSome_dinsert i v h

theorem ensureNode_fail_eq (g : VersatileDigraph) (i : String) (v : Value)
    (h : (ensureNode g i v).2 ≠ Option.none) : (ensureNode g i v).1 = g := by
  unfold ensureNode at h ⊢
  by_cases hc : (alookup i g.nodes).isNone = true
  · rw [if_pos hc] at h ⊢; exact add_node_fail_eq g i v h
  · rw [if_neg hc]

theorem ensureNode_ok_mem (g : VersatileDigraph) (i : String) (v : Value)
    (h : (ensureNode g i v).2 = Option.none) :
    nodeMem (ensureNode g i v).1 i = true := by
  unfold ensureNode at h ⊢
  by_cases hc : (alookup i g.nodes).isNone = true
  · rw [if_pos hc] at h ⊢; exact add_node_ok_mem g i v h
  · rw [if_neg hc]
    simp only [nodeMem]
    cases hx : alookup i g.nodes with
    | none => rw [hx] at hc; exact absurd rfl hc
    | some _ => rfl

theorem ensureNode_numeric_ok (g : VersatileDigraph) (i : String) (v : Value)
    (h : v.isNumeric = true) : (ensureNode g i v).2 = Option.none := by
  unfold ensureNode
  by_cases hc : (alookup i g.nodes).isNone = true
  · rw [if_pos hc, add_node_success g i v h (Option.isNone_iff_eq_none.mp hc)]
  · rw [if_neg hc]

theorem ensureNode_snd_cases (g : VersatileDigraph) (i : String) (v : Value) :
    (ensureNode g i v).2 = Option.none
    ∨ (ensureNode g i v).2 = some Err.typeErrorNodeValue := by
  unfold ensureNode
  by_cases hc : (alookup i g.nodes).isNone = true
  · rw [if_pos hc]
    by_cases h1 : (!v.isNumeric) = true
    · right; simp [add_node, h1]
    · left; simp [add_node, h1, hc]
  · rw [if_neg hc]; left; rfl

/-! ### Lemmas about storeEdge -/

theorem storeEdge_nodes (g : VersatileDigraph) (s e : String) (w : Value)
    (n : String) : (storeEdge g s e w n).nodes = g.nodes := rfl

theorem storeEdge_nodeMem (g : VersatileDigraph) (s e : String) (w : Value)
    (n : String) (x : String) : nodeMem (storeEdge g s e w n) x = nodeMem g x := rfl

theorem storeEdge_lookup (g : VersatileDigraph) (s e : String) (w : Value)
    (n : String) :
    alookup e ((alookup s (storeEdge g s e w n).edges).getD []) = some (w, n) := by
  show alookup e ((alookup s (dinsert s _ _)).getD []) = some (w, n)
  rw [alookup_dinsert, if_pos rfl, Option.getD_some, alookup_dinsert, if_pos rfl]

theorem mem_storeEdge_edges {g : VersatileDigraph} {s e : String} {w : Value}
    {n : String} {p : String × List (String × (Value × String))}
    (hp : p ∈ (storeEdge g s e w n).edges) :
    (p.1 = s ∧ ∀ q ∈ p.2, q = (e, (w, n))
       ∨ ∃ inn, alookup s g.edges = some inn ∧ q ∈ inn)
    ∨ p = (s, []) ∨ p ∈ g.edges := by
  have hp' : p ∈ dinsert s
      (dinsert e (w, n) ((alookup s (if (alookup s g.edges).isNone
        then dinsert s [] g.edges else g.edges)).getD []))
      (if (alookup s g.edges).isNone then dinsert s [] g.edges else g.edges) := hp
  rcases mem_dinsert hp' with hx | hx
  · left
    subst hx
    refine ⟨rfl, fun q hq => ?_⟩
    rcases mem_dinsert hq with hy | hy
    · exact Or.inl hy
    · cases hlk : alookup s g.edges with
      | none =>
        rw [if_pos (by rw [hlk]; rfl), alookup_dinsert, if_pos rfl] at hy
        simp at hy
      | some inn =>
        rw [if_neg (by rw [hlk]; simp), hlk] at hy
        exact Or.inr ⟨inn, rfl, hy⟩
  · cases hlk : alookup s g.edges with
    | none =>
      rw [if_pos (by rw [hlk]; rfl)] at hx
      rcases mem_dinsert hx with hy | hy
      · right; left; exact hy
      · right; right; exact hy
    | some inn =>
      rw [if_neg (by rw [hlk]; simp)] at hx
      right; right; exact hx

theorem storeEdge_invariant {g : VersatileDigraph} {s e : String} {w : Value}
    {n : String} (hg : edgeEndpointsPresent g = true)
    (hs : nodeMem g s = true) (he : nodeMem g e = true) :
    edgeEndpointsPresent (storeEdge g s e w n) = true := by
  unfold edgeEndpointsPresent at hg ⊢
  rw [List.all_eq_true] at hg ⊢
  intro p hp
  rw [Bool.and_eq_true, List.all_eq_true]
  rcases mem_storeEdge_edges hp with ⟨h1, h2⟩ | h1 | h1
  · constructor
    · rw [storeEdge_nodeMem, h1]; exact hs
    · intro q hq
      rcases h2 q hq with rfl | ⟨inn, hinn, hqinn⟩
      · rw [storeEdge_nodeMem]; exact he
      · have hinv := hg _ (alookup_mem hinn)
        rw [Bool.and_eq_true, List.all_eq_true] at hinv
        rw [storeEdge_nodeMem]; exact hinv.2 q hqinn
  · subst h1
    constructor
    · rw [storeEdge_nodeMem]; exact hs
    · intro q hq; simp at hq
  · have hinv := hg p h1
    rw [Bool.and_eq_true, List.all_eq_true] at hinv
    constructor
    · rw [storeEdge_nodeMem]; exact hinv.1
    · intro q hq; rw [storeEdge_nodeMem]; exact hinv.2 q hq

/-! ### Invariant transfer and add_edge case lemmas -/

theorem invariant_transfer {g g' : VersatileDigraph}
    (hedges : g'.edges = g.edges)
    (hmono : ∀ x, nodeMem g x = true → nodeMem g' x = true)
    (hg : edgeEndpointsPresent g = true) :
    edgeEndpointsPresent g' = true := by
  unfold edgeEndpointsPresent at hg ⊢
  rw [List.all_eq_true] at hg ⊢
  intro p hp
  rw [hedges] at hp
  have hinv := hg p hp
  rw [Bool.and_eq_true, List.all_eq_true] at hinv ⊢
  exact ⟨hmono _ hinv.1, fun q hq => hmono _ (hinv.2 q hq)⟩

theorem add_node_invariant (g : VersatileDigraph) (i : String) (v : Value)
    (hg : edgeEndpointsPresent g = true) :
    edgeEndpointsPresent (add_node g i v).1 = true :=
  invariant_transfer (add_node_edges g i v)
    (fun x => add_node_nodeMem_mono g i v x) hg

theorem ensureNode_invariant (g : VersatileDigraph) (i : String) (v : Value)
    (hg : edgeEndpointsPresent g = true) :
    edgeEndpointsPresent (ensureNode g i v).1 = true :=
  invariant_transfer (ensureNode_edges g i v)
    (fun x => ensureNode_nodeMem_mono g i v x) hg

theorem add_edge_cases (g : VersatileDigraph) (s e : String) (sv ev : Value)
    (nm : Option String) (w : Value) :
    ((!w.isNumeric) = true
       ∧ add_edge g s e sv ev nm w = (g, some Err.typeErrorWeight))
    ∨ ((!w.isNumeric) = false ∧ w.isNeg = true
       ∧ add_edge g s e sv ev nm w = (g, some Err.valueErrorNegWeight))
    ∨ (∃ g1 err, (!w.isNumeric) = false ∧ w.isNeg = false
       ∧ ensureNode g s sv = (g1, some err)
       ∧ add_edge g s e sv ev nm w = (g1, some err))
    ∨ (∃ g1 g2 err, (!w.isNumeric) = false ∧ w.isNeg = false
       ∧ ensureNode g s sv = (g1, Option.none)
       ∧ ensureNode g1 e ev = (g2, some err)
       ∧ add_edge g s e sv ev nm w = (g2, some err))
    ∨ (∃ g1 g2 n, (!w.isNumeric) = false ∧ w.isNeg = false
       ∧ ensureNode g s sv = (g1, Option.none)
       ∧ ensureNode g1 e ev = (g2, Option.none)
       ∧ nm = some n ∧ n ∈ g2.edge_names
       ∧ add_edge g s e sv ev nm w = (g2, some (Err.valueErrorDupEdgeName n)))
    ∨ (∃ g1 g2 n, (!w.isNumeric) = false ∧ w.isNeg = false
       ∧ ensureNode g s sv = (g1, Option.none)
       ∧ ensureNode g1 e ev = (g2, Option.none)
       ∧ nm = some n ∧ n ∉ g2.edge_names
       ∧ add_edge g s e sv ev nm w = (storeEdge g2 s e w n, Option.none))
    ∨ (∃ g1 g2, (!w.isNumeric) = false ∧ w.isNeg = false
       ∧ ensureNode g s sv = (g1, Option.none)
       ∧ ensureNode g1 e ev = (g2, Option.none)
       ∧ nm = Option.none
       ∧ add_edge g s e sv ev nm w
           = (storeEdge g2 s e w (defaultEdgeName s e), Option.none)) := by
  unfold add_edge
  split
  · next hw => exact Or.inl ⟨hw, rfl⟩
  · next hw =>
    have hw' : (!w.isNumeric) = false := Bool.eq_false_iff.mpr hw
    split
    · next hn => exact Or.inr (Or.inl ⟨hw', hn, rfl⟩)
    · next hn =>
      have hn' : w.isNeg = false := Bool.eq_false_iff.mpr hn
      split
      · next g1 err heq =>
        exact Or.inr (Or.inr (Or.inl ⟨g1, err, hw', hn', heq, rfl⟩))
      · next g1 heq =>
        split
        · next g2 err heq2 =>
          exact Or.inr (Or.inr (Or.inr (Or.inl
            ⟨g1, g2, err, hw', hn', heq, heq2, rfl⟩)))
        · next g2 heq2 =>
          split
          · next n =>
            split
            · next hdup =>
              exact Or.inr (Or.inr (Or.inr (Or.inr (Or.inl
                ⟨g1, g2, n, hw', hn', heq, heq2, rfl, hdup, rfl⟩))))
            · next hdup =>
              exact Or.inr (Or.inr (Or.inr (Or.inr (Or.inr (Or.inl
                ⟨g1, g2, n, hw', hn', heq, heq2, rfl, hdup, rfl⟩)))))
          · next =>
            exact Or.inr (Or.inr (Or.inr (Or.inr (Or.inr (Or.inr
              ⟨g1, g2, hw', hn', heq, heq2, rfl, rfl⟩)))))

theorem ensureNode_pair_facts {g g' : VersatileDigraph} {i : String} {v : Value}
    {o : Option Err} (h : ensureNode g i v = (g', o)) :
    g'.edges = g.edges ∧ g'.edge_names = g.edge_names
    ∧ (∀ x, nodeMem g x = true → nodeMem g' x = true) := by
  have e1 : (ensureNode g i v).1 = g' := by rw [h]
  refine ⟨?_, ?_, ?_⟩
  · rw [← e1]; exact ensureNode_edges g i v
  · rw [← e1]; exact ensureNode_edge_names g i v
  · intro x hx; rw [← e1]; exact ensureNode_nodeMem_mono g i v x hx

theorem ensureNode_pair_ok_mem {g g' : VersatileDigraph} {i : String} {v : Value}
    (h : ensureNode g i v = (g', Option.none)) : nodeMem g' i = true := by
  have e1 : (ensureNode g i v).1 = g' := by rw [h]
  rw [← e1]
  exact ensureNode_ok_mem g i v (by rw [h])

theorem add_edge_fail_preserves (g : VersatileDigraph) (s e : String)
    (sv ev : Value) (nm : Option String) (w : Value)
    (h : (add_edge g s e sv ev nm w).2 ≠ Option.none) :
    (add_edge g s e sv ev nm w).1.edges = g.edges
    ∧ (add_edge g s e sv ev nm w).1.edge_names = g.edge_names := by
  rcases add_edge_cases g s e sv ev nm w with
    ⟨hw, hres⟩ | ⟨hw, hn, hres⟩ | ⟨g1, err, hw, hn, h1, hres⟩ |
    ⟨g1, g2, err, hw, hn, h1, h2, hres⟩ |
    ⟨g1, g2, n, hw, hn, h1, h2, hnm, hdup, hres⟩ |
    ⟨g1, g2, n, hw, hn, h1, h2, hnm, hdup, hres⟩ |
    ⟨g1, g2, hw, hn, h1, h2, hnm, hres⟩
  · rw [hres]; exact ⟨rfl, rfl⟩
  · rw [hres]; exact ⟨rfl, rfl⟩
  · rw [hres]
    obtain ⟨hE, hN, _⟩ := ensureNode_pair_facts h1
    exact ⟨hE, hN⟩
  · rw [hres]
    obtain ⟨hE1, hN1, _⟩ := ensureNode_pair_facts h1
    obtain ⟨hE2, hN2, _⟩ := ensureNode_pair_facts h2
    exact ⟨hE2.trans hE1, hN2.trans hN1⟩
  · rw [hres]
    obtain ⟨hE1, hN1, _⟩ := ensureNode_pair_facts h1
    obtain ⟨hE2, hN2, _⟩ := ensureNode_pair_facts h2
    exact ⟨hE2.trans hE1, hN2.trans hN1⟩
  · rw [hres] at h; exact absurd rfl h
  · rw [hres] at h; exact absurd rfl h

theorem add_edge_endpoints_present (g : VersatileDigraph) (s e : String)
    (sv ev : Value) (nm : Option String) (w : Value)
    (hsv : sv.isNumeric = true) (hev : ev.isNumeric = true)
    (hw : w.isNumeric = true) (hn : w.isNeg = false) :
    nodeMem (add_edge g s e sv ev nm w).1 s = true
    ∧ nodeMem (add_edge g s e sv ev nm w).1 e = true := by
  rcases add_edge_cases g s e sv ev nm w with
    ⟨hw', hres⟩ | ⟨hw', hn', hres⟩ | ⟨g1, err, hw', hn', h1, hres⟩ |
    ⟨g1, g2, err, hw', hn', h1, h2, hres⟩ |
    ⟨g1, g2, n, hw', hn', h1, h2, hnm, hdup, hres⟩ |
    ⟨g1, g2, n, hw', hn', h1, h2, hnm, hdup, hres⟩ |
    ⟨g1, g2, hw', hn', h1, h2, hnm, hres⟩
  · rw [hw] at hw'; cases hw'
  · rw [hn] at hn'; cases hn'
  · have := ensureNode_numeric_ok g s sv hsv
    rw [h1] at this; cases this
  · have := ensureNode_numeric_ok g1 e ev hev
    rw [h2] at this; cases this
  all_goals {
    have hms : nodeMem g2 s = true :=
      (ensureNode_pair_facts h2).2.2 s (ensureNode_pair_ok_mem h1)
    have hme : nodeMem g2 e = true := ensureNode_pair_ok_mem h2
    rw [hres]
    exact ⟨hms, hme⟩
  }

theorem add_edge_snd_complete (g : VersatileDigraph) (s e : String)
    (sv ev : Value) (nm : Option String) (w : Value) :
    (add_edge g s e sv ev nm w).2 = Option.none
    ∨ (add_edge g s e sv ev nm w).2 = some Err.typeErrorWeight
    ∨ (add_edge g s e sv ev nm w).2 = some Err.valueErrorNegWeight
    ∨ (add_edge g s e sv ev nm w).2 = some Err.typeErrorNodeValue
    ∨ (∃ n, nm = some n
        ∧ (add_edge g s e sv ev nm w).2 = some (Err.valueErrorDupEdgeName n)) := by
  rcases add_edge_cases g s e sv ev nm w with
    ⟨hw', hres⟩ | ⟨hw', hn', hres⟩ | ⟨g1, err, hw', hn', h1, hres⟩ |
    ⟨g1, g2, err, hw', hn', h1, h2, hres⟩ |
    ⟨g1, g2, n, hw', hn', h1, h2, hnm, hdup, hres⟩ |
    ⟨g1, g2, n, hw', hn', h1, h2, hnm, hdup, hres⟩ |
    ⟨g1, g2, hw', hn', h1, h2, hnm, hres⟩
  · rw [hres]; exact Or.inr (Or.inl rfl)
  · rw [hres]; exact Or.inr (Or.inr (Or.inl rfl))
  · rcases ensureNode_snd_cases g s sv with hc | hc <;> rw [h1] at hc
    · cases hc
    · rw [hres]
      cases hc
      exact Or.inr (Or.inr (Or.inr (Or.inl rfl)))
  · rcases ensureNode_snd_cases g1 e ev with hc | hc <;> rw [h2] at hc
    · cases hc
    · rw [hres]
      cases hc
      exact Or.inr (Or.inr (Or.inr (Or.inl rfl)))
  · rw [hres]
    exact Or.inr (Or.inr (Or.inr (Or.inr ⟨n, hnm, rfl⟩)))
  · rw [hres]; exact Or.inl rfl
  · rw [hres]; exact Or.inl rfl

theorem add_edge_success_lookup (g : VersatileDigraph) (s e : String)
    (sv ev : Value) (nm : Option String) (w : Value)
    (h : (add_edge g s e sv ev nm w).2 = Option.none) :
    alookup e ((alookup s (add_edge g s e sv ev nm w).1.edges).getD [])
      = some (w, nm.getD (defaultEdgeName s e)) := by
  rcases add_edge_cases g s e sv ev nm w with
    ⟨hw', hres⟩ | ⟨hw', hn', hres⟩ | ⟨g1, err, hw', hn', h1, hres⟩ |
    ⟨g1, g2, err, hw', hn', h1, h2, hres⟩ |
    ⟨g1, g2, n, hw', hn', h1, h2, hnm, hdup, hres⟩ |
    ⟨g1, g2, n, hw', hn', h1, h2, hnm, hdup, hres⟩ |
    ⟨g1, g2, hw', hn', h1, h2, hnm, hres⟩
  · rw [hres] at h; cases h
  · rw [hres] at h; cases h
  · rw [hres] at h; cases h
  · rw [hres] at h; cases h
  · rw [hres] at h; cases h
  · rw [hres, hnm]
    exact storeEdge_lookup g2 s e w n
  · rw [hres, hnm]
    exact storeEdge_lookup g2 s e w (defaultEdgeName s e)

theorem add_edge_dup_name_fail (g : VersatileDigraph) (s e : String)
    (sv ev : Value) (n : String) (w : Value)
    (hsv : sv.isNumeric = true) (hev : ev.isNumeric = true)
    (hw : w.isNumeric = true) (hn : w.isNeg = false)
    (hmem : n ∈ g.edge_names) :
    (add_edge g s e sv ev (some n) w).2 = some (Err.valueErrorDupEdgeName n) := by
  rcases add_edge_cases g s e sv ev (some n) w with
    ⟨hw', hres⟩ | ⟨hw', hn', hres⟩ | ⟨g1, err, hw', hn', h1, hres⟩ |
    ⟨g1, g2, err, hw', hn', h1, h2, hres⟩ |
    ⟨g1, g2, m, hw', hn', h1, h2, hnm, hdup, hres⟩ |
    ⟨g1, g2, m, hw', hn', h1, h2, hnm, hdup, hres⟩ |
    ⟨g1, g2, hw', hn', h1, h2, hnm, hres⟩
  · rw [hw] at hw'; cases hw'
  · rw [hn] at hn'; cases hn'
  · have := ensureNode_numeric_ok g s sv hsv
    rw [h1] at this; cases this
  · have := ensureNode_numeric_ok g1 e ev hev
    rw [h2] at this; cases this
  · cases hnm
    rw [hres]
  · cases hnm
    have hnames : g2.edge_names = g.edge_names :=
      ((ensureNode_pair_facts h2).2.1).trans (ensureNode_pair_facts h1).2.1
    rw [hnames] at hdup
    exact absurd hmem hdup
  · cases hnm

theorem add_edge_none_never_dup (g : VersatileDigraph) (s e : String)
    (sv ev : Value) (w : Value) (m : String) :
    (add_edge g s e sv ev Option.none w).2
      ≠ some (Err.valueErrorDupEdgeName m) := by
  rcases add_edge_snd_complete g s e sv ev Option.none w with
    hc | hc | hc | hc | ⟨n, hnm, hc⟩
  · rw [hc]; intro hx; cases hx
  · rw [hc]; intro hx; cases hx
  · rw [hc]; intro hx; cases hx
  · rw [hc]; intro hx; cases hx
  · cases hnm

theorem add_edge_invariant (g : VersatileDigraph) (s e : String)
    (sv ev : Value) (nm : Option String) (w : Value)
    (hg : edgeEndpointsPresent g = true) :
    edgeEndpointsPresent (add_edge g s e sv ev nm w).1 = true := by
  rcases add_edge_cases g s e sv ev nm w with
    ⟨hw', hres⟩ | ⟨hw', hn', hres⟩ | ⟨g1, err, hw', hn', h1, hres⟩ |
    ⟨g1, g2, err, hw', hn', h1, h2, hres⟩ |
    ⟨g1, g2, n, hw', hn', h1, h2, hnm, hdup, hres⟩ |
    ⟨g1, g2, n, hw', hn', h1, h2, hnm, hdup, hres⟩ |
    ⟨g1, g2, hw', hn', h1, h2, hnm, hres⟩
  · rw [hres]; exact hg
  · rw [hres]; exact hg
  · rw [hres]
    obtain ⟨hE, _, hM⟩ := ensureNode_pair_facts h1
    exact invariant_transfer hE hM hg
  · rw [hres]
    obtain ⟨hE1, _, hM1⟩ := ensureNode_pair_facts h1
    obtain ⟨hE2, _, hM2⟩ := ensureNode_pair_facts h2
    exact invariant_transfer hE2 hM2 (invariant_transfer hE1 hM1 hg)
  · rw [hres]
    obtain ⟨hE1, _, hM1⟩ := ensureNode_pair_facts h1
    obtain ⟨hE2, _, hM2⟩ := ensureNode_pair_facts h2
    exact invariant_transfer hE2 hM2 (invariant_transfer hE1 hM1 hg)
  all_goals {
    rw [hres]
    obtain ⟨hE1, _, hM1⟩ := ensureNode_pair_facts h1
    obtain ⟨hE2, _, hM2⟩ := ensureNode_pair_facts h2
    have hg2 : edgeEndpointsPresent g2 = true :=
      invariant_transfer hE2 hM2 (invariant_transfer hE1 hM1 hg)
    have hms : nodeMem g2 s = true := hM2 s (ensureNode_pair_ok_mem h1)
    have hme : nodeMem g2 e = true := ensureNode_pair_ok_mem h2
    exact storeEdge_invariant hg2 hms hme
  }

theorem applyOp_invariant (g : VersatileDigraph) (op : Op)
    (hg : edgeEndpointsPresent g = true) :
    edgeEndpointsPresent (applyOp g op) = true := by
  cases op with
  | addNode i v => exact add_node_invariant g i v hg
  | addEdge s e sv ev nm w => exact add_edge_invariant g s e sv ev nm w hg

theorem runOps_invariant (ops : List Op) (g : VersatileDigraph)
    (hg : edgeEndpointsPresent g = true) :
    edgeEndpointsPresent (runOps g ops) = true := by
  induction ops generalizing g with
  | nil => exact hg
  | cons op rest ih => exact ih _ (applyOp_invariant g op hg)

/-! ### Claim C1 -/

/-- C1 counterexample: from the empty graph, `add_edge("A", "B", ...)` with
both endpoints missing raises nothing, auto-creates both nodes (with the
default value 0) and records the edge — the claim said the call must fail
with a MissingNodeError-kind failure and add neither edge nor node. -/
theorem C1_counterexample :
    nodeMem initGraph "A" = false
    ∧ nodeMem initGraph "B" = false
    ∧ (add_edge initGraph "A" "B" (Value.num 0) (Value.num 0) (some "e1")
        (Value.num 5)).2 = Option.none
    ∧ get_node_value (add_edge initGraph "A" "B" (Value.num 0) (Value.num 0)
        (some "e1") (Value.num 5)).1 "A" = Except.ok (Value.num 0)
    ∧ get_edge_weight (add_edge initGraph "A" "B" (Value.num 0) (Value.num 0)
        (some "e1") (Value.num 5)).1 "A" "B" = Except.ok (Value.num 5) :=
  ⟨rfl, rfl, rfl, rfl, rfl⟩

/-- C1 (corrected): `add_edge` never rejects a missing endpoint: whenever
the weight passes the numeric checks and the endpoint default values are
numeric, missing endpoints are auto-created, so after the call (successful
or not) both endpoints are keys of the node table. -/
theorem C1_theorem (g : VersatileDigraph) (s e : String) (sv ev : Value)
    (nm : Option String) (w : Value)
    (hsv : sv.isNumeric = true) (hev : ev.isNumeric = true)
    (hw : w.isNumeric = true) (hn : w.isNeg = false) :
    nodeMem (add_edge g s e sv ev nm w).1 s = true
    ∧ nodeMem (add_edge g s e sv ev nm w).1 e = true :=
  add_edge_endpoints_present g s e sv ev nm w hsv hev hw hn

/-- C1 witness: the theorem applied to the empty graph and the call
`add_edge("A", "B", edge_name="e1", edge_weight=5)`. -/
theorem C1_witness :
    nodeMem (add_edge initGraph "A" "B" (Value.num 0) (Value.num 0)
      (some "e1") (Value.num 5)).1 "A" = true
    ∧ nodeMem (add_edge initGraph "A" "B" (Value.num 0) (Value.num 0)
      (some "e1") (Value.num 5)).1 "B" = true :=
  C1_theorem initGraph "A" "B" (Value.num 0) (Value.num 0) (some "e1")
    (Value.num 5) rfl rfl rfl rfl

/-! ### Claim C2 -/

/-- C2 counterexample: `out_degree` on an identifier that is not a node
returns 0 instead of failing — the source checks `node_id in self.edges`
only, so a nonexistent node id yields a value, not a
NodeNotFoundError-kind failure. -/
theorem C2_counterexample :
    nodeMem initGraph "Z" = false
    ∧ out_degree initGraph "Z" = Except.ok 0 :=
  ⟨rfl, rfl⟩

/-- C2 (corrected): on a nonexistent node id, `predecessors`, `successors`
and `in_degree` fail with the NodeNotFoundError-kind `KeyError`, but
`out_degree` never fails: it returns a count (0 when the id heads no
edge). -/
theorem C2_theorem (g : VersatileDigraph) (i : String)
    (h : nodeMem g i = false) :
    predecessors g i = Except.error (Err.keyErrorNoNode i)
    ∧ successors g i = Except.error (Err.keyErrorNoNode i)
    ∧ in_degree g i = Except.error (Err.keyErrorNoNode i)
    ∧ ∃ k, out_degree g i = Except.ok k := by
  have hn : (alookup i g.nodes).isNone = true := by
    unfold nodeMem at h
    cases hx : alookup i g.nodes with
    | none => rfl
    | some v => rw [hx] at h; cases h
  have hp : predecessors g i = Except.error (Err.keyErrorNoNode i) := by
    unfold predecessors
    rw [if_pos hn]
  refine ⟨hp, ?_, ?_, ?_⟩
  · unfold successors
    rw [if_pos hn]
  · unfold in_degree
    rw [hp]
  · rcases hx : alookup i g.edges with _ | inner
    · exact ⟨0, by unfold out_degree; rw [hx]⟩
    · exact ⟨inner.length, by unfold out_degree; rw [hx]⟩

/-- C2 witness: the theorem applied to the empty graph and the never-added
identifier "Z". -/
theorem C2_witness :
    predecessors initGraph "Z" = Except.error (Err.keyErrorNoNode "Z")
    ∧ successors initGraph "Z" = Except.error (Err.keyErrorNoNode "Z")
    ∧ in_degree initGraph "Z" = Except.error (Err.keyErrorNoNode "Z")
    ∧ ∃ k, out_degree initGraph "Z" = Except.ok k :=
  C2_theorem initGraph "Z" rfl

/-! ### Claim C3 -/

/-- C3 counterexample: with both endpoints present, adding an edge with
weight 0 succeeds and stores the edge — the source only rejects
`edge_weight < 0`, so the claim's "including w = 0" case fails. -/
theorem C3_counterexample :
    nodeMem gAB "A" = true
    ∧ nodeMem gAB "B" = true
    ∧ (add_edge gAB "A" "B" (Value.num 0) (Value.num 0) (some "e1")
        (Value.num 0)).2 = Option.none
    ∧ get_edge_weight (add_edge gAB "A" "B" (Value.num 0) (Value.num 0)
        (some "e1") (Value.num 0)).1 "A" "B" = Except.ok (Value.num 0) :=
  ⟨rfl, rfl, rfl, rfl⟩

/-- C3 (corrected): a strictly negative numeric weight makes `add_edge`
fail with the InvalidValueError-kind `ValueError` and leaves the graph
unchanged, while every numeric weight ≥ 0 — zero included — passes both
weight checks (the call never reports a weight error). -/
theorem C3_theorem (g : VersatileDigraph) (s e : String) (sv ev : Value)
    (nm : Option String) (wi : Int) :
    (wi < 0 → add_edge g s e sv ev nm (Value.num wi)
        = (g, some Err.valueErrorNegWeight))
    ∧ (0 ≤ wi →
        (add_edge g s e sv ev nm (Value.num wi)).2 ≠ some Err.valueErrorNegWeight
        ∧ (add_edge g s e sv ev nm (Value.num wi)).2 ≠ some Err.typeErrorWeight) := by
  constructor
  · intro hneg
    rcases add_edge_cases g s e sv ev nm (Value.num wi) with
      ⟨hw', hres⟩ | ⟨hw', hn', hres⟩ | ⟨g1, err, hw', hn', h1, hres⟩ |
      ⟨g1, g2, err, hw', hn', h1, h2, hres⟩ |
      ⟨g1, g2, n, hw', hn', h1, h2, hnm, hdup, hres⟩ |
      ⟨g1, g2, n, hw', hn', h1, h2, hnm, hdup, hres⟩ |
      ⟨g1, g2, hw', hn', h1, h2, hnm, hres⟩
    · simp [Value.isNumeric] at hw'
    · exact hres
    all_goals {
      simp only [Value.isNeg, decide_eq_false_iff_not] at hn'
      exact absurd hneg hn'
    }
  · intro h0
    rcases add_edge_cases g s e sv ev nm (Value.num wi) with
      ⟨hw', hres⟩ | ⟨hw', hn', hres⟩ | ⟨g1, err, hw', hn', h1, hres⟩ |
      ⟨g1, g2, err, hw', hn', h1, h2, hres⟩ |
      ⟨g1, g2, n, hw', hn', h1, h2, hnm, hdup, hres⟩ |
      ⟨g1, g2, n, hw', hn', h1, h2, hnm, hdup, hres⟩ |
      ⟨g1, g2, hw', hn', h1, h2, hnm, hres⟩
    · simp [Value.isNumeric] at hw'
    · simp only [Value.isNeg, decide_eq_true_eq] at hn'
      exact absurd hn' (not_lt.mpr h0)
    · rcases ensureNode_snd_cases g s sv with hc | hc <;> rw [h1] at hc
      · cases hc
      · injection hc with hc'
        subst hc'
        rw [hres]
        exact ⟨by intro hx; simp at hx, by intro hx; simp at hx⟩
    · rcases ensureNode_snd_cases g1 e ev with hc | hc <;> rw [h2] at hc
      · cases hc
      · injection hc with hc'
        subst hc'
        rw [hres]
        exact ⟨by intro hx; simp at hx, by intro hx; simp at hx⟩
    · rw [hres]
      exact ⟨by intro hx; simp at hx, by intro hx; simp at hx⟩
    · rw [hres]
      exact ⟨by intro hx; simp at hx, by intro hx; simp at hx⟩
    · rw [hres]
      exact ⟨by intro hx; simp at hx, by intro hx; simp at hx⟩

/-- C3 witness: weight −1 is rejected on the A/B graph; weight 0 passes the
weight checks there. -/
theorem C3_witness :
    add_edge gAB "A" "B" (Value.num 0) (Value.num 0) (some "e1")
      (Value.num (-1)) = (gAB, some Err.valueErrorNegWeight)
    ∧ (add_edge gAB "A" "B" (Value.num 0) (Value.num 0) (some "e1")
        (Value.num 0)).2 ≠ some Err.valueErrorNegWeight :=
  ⟨(C3_theorem gAB "A" "B" (Value.num 0) (Value.num 0) (some "e1") (-1)).1
      (by decide),
   ((C3_theorem gAB "A" "B" (Value.num 0) (Value.num 0) (some "e1") 0).2
      (by decide)).1⟩

/-! ### Claim C4 -/

/-- C4 counterexample: on the scenario graph (whose edge is named "e1"),
the failing call `add_edge("A", "C", edge_name="e1")` raises the
duplicate-name `ValueError` only after auto-creating node "C", so the node
table of the post-call state differs from the pre-call state: the failed
add is not atomic. -/
theorem C4_counterexample :
    (add_edge gScenario "A" "C" (Value.num 0) (Value.num 0) (some "e1")
      (Value.num 2)).2 = some (Err.valueErrorDupEdgeName "e1")
    ∧ nodeMem gScenario "C" = false
    ∧ nodeMem (add_edge gScenario "A" "C" (Value.num 0) (Value.num 0)
        (some "e1") (Value.num 2)).1 "C" = true :=
  ⟨rfl, rfl, rfl⟩

/-- C4 (corrected): `add_node` is atomic — a failing call leaves the state
exactly as before — and a failing `add_edge` leaves the edge table and the
edge-name set unchanged, but not necessarily the node table: endpoints
auto-created before the failure point remain (as the counterexample
shows). -/
theorem C4_theorem (g g' : VersatileDigraph) (i : String) (v : Value)
    (s e : String) (sv ev : Value) (nm : Option String) (w : Value) :
    ((add_node g i v).2 ≠ Option.none → (add_node g i v).1 = g)
    ∧ ((add_edge g' s e sv ev nm w).2 ≠ Option.none →
        (add_edge g' s e sv ev nm w).1.edges = g'.edges
        ∧ (add_edge g' s e sv ev nm w).1.edge_names = g'.edge_names) :=
  ⟨add_node_fail_eq g i v, add_edge_fail_preserves g' s e sv ev nm w⟩

/-- C4 witness: a duplicate `add_node("A")` on the A/B graph leaves it
untouched, and the failing duplicate-name `add_edge` on the scenario graph
keeps its edge table and edge-name set. -/
theorem C4_witness :
    (add_node gAB "A" (Value.num 2)).1 = gAB
    ∧ ((add_edge gScenario "A" "C" (Value.num 0) (Value.num 0) (some "e1")
          (Value.num 2)).1.edges = gScenario.edges
       ∧ (add_edge gScenario "A" "C" (Value.num 0) (Value.num 0) (some "e1")
          (Value.num 2)).1.edge_names = gScenario.edge_names) :=
  ⟨(C4_theorem gAB gScenario "A" (Value.num 2) "A" "C" (Value.num 0)
      (Value.num 0) (some "e1") (Value.num 2)).1 (by decide),
   (C4_theorem gAB gScenario "A" (Value.num 2) "A" "C" (Value.num 0)
      (Value.num 0) (some "e1") (Value.num 2)).2 (by decide)⟩

/-! ### Claim C5 -/

/-- C5 counterexample: on a graph whose edge-name set already contains
"edge_A_C", the call `add_edge("A", "C")` with the name argument omitted
succeeds — the duplicate check is skipped for defaulted names — and
afterwards two distinct edges carry the name "edge_A_C". -/
theorem C5_counterexample :
    ("edge_A_C" ∈ gDefaultClash.edge_names)
    ∧ (add_edge gDefaultClash "A" "C" (Value.num 0) (Value.num 0) Option.none
        (Value.num 2)).2 = Option.none
    ∧ alookup "B" ((alookup "A" (add_edge gDefaultClash "A" "C" (Value.num 0)
        (Value.num 0) Option.none (Value.num 2)).1.edges).getD [])
        = some (Value.num 1, "edge_A_C")
    ∧ alookup "C" ((alookup "A" (add_edge gDefaultClash "A" "C" (Value.num 0)
        (Value.num 0) Option.none (Value.num 2)).1.edges).getD [])
        = some (Value.num 2, "edge_A_C") :=
  ⟨by decide, rfl, rfl, rfl⟩

/-- C5 (corrected): the duplicate-name check fires only when the name
argument is explicitly provided — then a name already in use fails with the
DuplicateEdgeNameError-kind `ValueError` — while a call with the name
omitted never fails with a duplicate-name error, even when the defaulted
name `edge_start_end` is already in use. -/
theorem C5_theorem (g : VersatileDigraph) (s e : String) (sv ev : Value)
    (n m : String) (w : Value)
    (hsv : sv.isNumeric = true) (hev : ev.isNumeric = true)
    (hw : w.isNumeric = true) (hn : w.isNeg = false)
    (hmem : n ∈ g.edge_names) :
    (add_edge g s e sv ev (some n) w).2 = some (Err.valueErrorDupEdgeName n)
    ∧ (add_edge g s e sv ev Option.none w).2
        ≠ some (Err.valueErrorDupEdgeName m) :=
  ⟨add_edge_dup_name_fail g s e sv ev n w hsv hev hw hn hmem,
   add_edge_none_never_dup g s e sv ev w m⟩

/-- C5 witness: the theorem applied to the clash graph, the in-use name
"edge_A_C" and the call `add_edge("A", "C", edge_weight=2)`. -/
theorem C5_witness :
    (add_edge gDefaultClash "A" "C" (Value.num 0) (Value.num 0)
      (some "edge_A_C") (Value.num 2)).2
        = some (Err.valueErrorDupEdgeName "edge_A_C")
    ∧ (add_edge gDefaultClash "A" "C" (Value.num 0) (Value.num 0) Option.none
        (Value.num 2)).2 ≠ some (Err.valueErrorDupEdgeName "edge_A_C") :=
  C5_theorem gDefaultClash "A" "C" (Value.num 0) (Value.num 0) "edge_A_C"
    "edge_A_C" (Value.num 2) rfl rfl rfl rfl (by decide)

/-! ### Claim C6 -/

/-- C6 counterexample: after a second successful `add_edge("A", "B")` under
the new name "n2", the (A, B) slot holds only the new weight/name pair, the
edge named "n1" is gone (`successor_on_edge` no longer finds it) and A's
out-degree is still 1 — the two parallel edges the claim promises do not
both exist. -/
theorem C6_counterexample :
    (add_edge gN1 "A" "B" (Value.num 0) (Value.num 0) (some "n2")
      (Value.num 2)).2 = Option.none
    ∧ alookup "B" ((alookup "A" (add_edge gN1 "A" "B" (Value.num 0)
        (Value.num 0) (some "n2") (Value.num 2)).1.edges).getD [])
        = some (Value.num 2, "n2")
    ∧ successor_on_edge (add_edge gN1 "A" "B" (Value.num 0) (Value.num 0)
        (some "n2") (Value.num 2)).1 "A" "n1"
        = Except.error (Err.keyErrorNoSuccessor "A" "n1")
    ∧ out_degree (add_edge gN1 "A" "B" (Value.num 0) (Value.num 0)
        (some "n2") (Value.num 2)).1 "A" = Except.ok 1 :=
  ⟨rfl, rfl, rfl, rfl⟩

/-- C6 (corrected): the edge table keys edges by (start, end) only: every
successful `add_edge` leaves the (start, end) slot holding exactly the
weight and resolved name of that call, so a second insertion for the same
ordered pair overwrites the first instead of coexisting with it. -/
theorem C6_theorem (g : VersatileDigraph) (s e : String) (sv ev : Value)
    (nm : Option String) (w : Value)
    (h : (add_edge g s e sv ev nm w).2 = Option.none) :
    alookup e ((alookup s (add_edge g s e sv ev nm w).1.edges).getD [])
      = some (w, nm.getD (defaultEdgeName s e)) :=
  add_edge_success_lookup g s e sv ev nm w h

/-- C6 witness: the theorem applied to the second insertion
`add_edge("A", "B", edge_name="n2", edge_weight=2)` over the edge "n1". -/
theorem C6_witness :
    alookup "B" ((alookup "A" (add_edge gN1 "A" "B" (Value.num 0)
        (Value.num 0) (some "n2") (Value.num 2)).1.edges).getD [])
      = some (Value.num 2, (some "n2").getD (defaultEdgeName "A" "B")) :=
  C6_theorem gN1 "A" "B" (Value.num 0) (Value.num 0) (some "n2")
    (Value.num 2) rfl

/-! ### Claim C7 -/

/-- C7 counterexample: node "A" exists, yet `add_node("A", "x")` with a
non-numeric value fails with the InvalidValueError-kind `TypeError`, not
the DuplicateNodeError-kind `ValueError` the claim promises for every
later `add_node` on an existing id (the type check runs first). -/
theorem C7_counterexample :
    alookup "A" gAB.nodes = some (Value.num 10)
    ∧ add_node gAB "A" (Value.str "x") = (gAB, some Err.typeErrorNodeValue)
    ∧ Err.typeErrorNodeValue ≠ Err.valueErrorDupNode "A" :=
  ⟨rfl, rfl, by decide⟩

/-- C7 (corrected): a later `add_node` on an existing id always fails and
never changes the stored value, but the failure is the
DuplicateNodeError-kind `ValueError` exactly when the new value is numeric;
a non-numeric new value trips the type check first. -/
theorem C7_theorem (g : VersatileDigraph) (i : String) (v v' : Value)
    (h : alookup i g.nodes = some v) :
    (add_node g i v').2 ≠ Option.none
    ∧ ((add_node g i v').2 = some (Err.valueErrorDupNode i)
        ↔ v'.isNumeric = true)
    ∧ get_node_value (add_node g i v').1 i = Except.ok v := by
  have hks : (alookup i g.nodes).isNone = false := by rw [h]; rfl
  by_cases h1 : (!v'.isNumeric) = true
  · have hnum : v'.isNumeric = false := by
      cases hx : v'.isNumeric
      · rfl
      · rw [hx] at h1; cases h1
    refine ⟨?_, ?_, ?_⟩
    · simp [add_node, h1]
    · simp [add_node, h1, hnum]
    · simp [add_node, h1, get_node_value, h]
  · have hnum : v'.isNumeric = true := by
      cases hx : v'.isNumeric
      · rw [hx] at h1; exact absurd rfl h1
      · rfl
    refine ⟨?_, ?_, ?_⟩
    · simp [add_node, h1, hks]
    · simp [add_node, h1, hks, hnum]
    · simp [add_node, h1, hks, get_node_value, h]

/-- C7 witness: the theorem applied to the A/B graph and the duplicate call
`add_node("A", 99)`. -/
theorem C7_witness :
    (add_node gAB "A" (Value.num 99)).2 ≠ Option.none
    ∧ ((add_node gAB "A" (Value.num 99)).2 = some (Err.valueErrorDupNode "A")
        ↔ (Value.num 99).isNumeric = true)
    ∧ get_node_value (add_node gAB "A" (Value.num 99)).1 "A"
        = Except.ok (Value.num 10) :=
  C7_theorem gAB "A" (Value.num 10) (Value.num 99) rfl

/-! ### Claim C8 -/

/-- C8 (confirmed): on a fresh identifier, `add_node` with a non-numeric
value fails with the InvalidValueError-kind `TypeError` and changes
nothing, and with any numeric value it succeeds and `get_node_value`
then returns exactly that value. -/
theorem C8_theorem (g : VersatileDigraph) (i : String) (v : Value)
    (h : alookup i g.nodes = Option.none) :
    (v.isNumeric = false → add_node g i v = (g, some Err.typeErrorNodeValue))
    ∧ (v.isNumeric = true → (add_node g i v).2 = Option.none
        ∧ get_node_value (add_node g i v).1 i = Except.ok v) := by
  constructor
  · intro hv
    simp [add_node, hv]
  · intro hv
    rw [add_node_success g i v hv h]
    refine ⟨rfl, ?_⟩
    simp [get_node_value, alookup_dinsert]

/-- C8 witness: on the empty graph, `add_node("A", "x")` fails with the
type error and `add_node("A", 7)` succeeds with `get_node_value` returning
7. -/
theorem C8_witness :
    add_node initGraph "A" (Value.str "x")
      = (initGraph, some Err.typeErrorNodeValue)
    ∧ ((add_node initGraph "A" (Value.num 7)).2 = Option.none
       ∧ get_node_value (add_node initGraph "A" (Value.num 7)).1 "A"
           = Except.ok (Value.num 7)) :=
  ⟨(C8_theorem initGraph "A" (Value.str "x") rfl).1 rfl,
   (C8_theorem initGraph "A" (Value.num 7) rfl).2 rfl⟩

/-! ### Claim C9 -/

/-- C9 (confirmed): in the worked scenario — nodes A(10), B(20), edge A→B
named "e1" with weight 5 — the successors of A are exactly {B}, the
predecessors of B exactly {A}, A's out-degree and B's in-degree are 1, the
A→B weight is 5, the successor of A on edge "e1" is B, and looking up the
nonexistent A→C edge fails with the EdgeNotFoundError-kind `KeyError`. -/
theorem C9_theorem :
    get_node_value gScenario "A" = Except.ok (Value.num 10)
    ∧ get_node_value gScenario "B" = Except.ok (Value.num 20)
    ∧ successors gScenario "A" = Except.ok ["B"]
    ∧ predecessors gScenario "B" = Except.ok ["A"]
    ∧ out_degree gScenario "A" = Except.ok 1
    ∧ in_degree gScenario "B" = Except.ok 1
    ∧ get_edge_weight gScenario "A" "B" = Except.ok (Value.num 5)
    ∧ successor_on_edge gScenario "A" "e1" = Except.ok "B"
    ∧ get_edge_weight gScenario "A" "C"
        = Except.error (Err.keyErrorNoEdge "A" "C") :=
  ⟨rfl, rfl, rfl, rfl, rfl, rfl, rfl, rfl, rfl⟩

/-! ### Claim C10 -/

/-- C10 (confirmed): every sequence of `add_node`/`add_edge` calls starting
from the empty graph — failing calls included, kept in whatever state the
call reached — leaves a graph in which every start and end identifier
recorded in the edge table is a key of the node table, because `add_edge`
auto-creates missing endpoints before recording the edge. -/
theorem C10_theorem (ops : List Op) :
    edgeEndpointsPresent (runOps initGraph ops) = true :=
  runOps_invariant ops initGraph rfl
